import Mathlib

/-!
Verification development for the crawling/positioning/booking-bus repository.

The definitions below are a shallow embedding of the orchestration core of the
repository: the progress computation (`update_progress` in
web_crawler_unified.py and web_crawler_redbus.py), the sequential Redbus worker
(`redbus_worker` in web_crawler_unified.py), the start/stop endpoints, the crawl
task generators (url_crawler_formatter.py and web_crawler_unified.py), the
URL/date formatting of routes_manager.py, the crawl-sequence migration
(migrate_add_crawl_sequence.py) and the dedup fingerprint (database.py).

Modelling conventions:
- machine integers are Nat; Python's binary64 float arithmetic (used only in
  the progress computation) is modelled exactly over scaled naturals with
  round-to-nearest-even;
- stateful code becomes explicit state passing on a `RunState` record;
- wall-clock timestamps, socket emissions, CSV files and the transient
  `current_tasks` bookkeeping are not modelled (they do not feed back into
  control flow or counters);
- Python strings are modelled as Lean `String`, iterated via `.data`; digit
  tests use ASCII digits (Python's `str.isdigit` and `\d` also accept some
  Unicode digits, which no caller in the repository produces).
-/

/-! ### Binary64 model for the progress computation

web_crawler_unified.py line 533 (and web_crawler_redbus.py line 58) computes
`int((completed / total) * 100) if total > 0 else 0`.  Python evaluates the
division and the multiplication in IEEE-754 binary64 with round-to-nearest,
ties-to-even, then truncates toward zero.  We model a positive rational a/b
rounded to binary64 as a pair (m, s) with value m / 2^s, where m is the
53-bit significand obtained by round-to-nearest-even.  The model is exact for
quotients in the normal finite range below 2^52, which covers every value the
progress computation can produce (completed / total is at most a small
multiple of 1 and the product is at most a few hundred). -/

/-- Smallest shift `s` (up to the fuel bound) with `2^52 * b ≤ a * 2^s`:
normalisation exponent used to bring `a/b` to a 53-bit significand. -/
def findShift (a b : Nat) : Nat → Nat
  | 0 => 0
  | fuel + 1 => if 2 ^ 52 * b ≤ a then 0 else findShift (2 * a) b fuel + 1

/-- Round the positive rational `a / b` to binary64 (round to nearest, ties to
even).  Returns `(m, s)` with the rounded value equal to `m / 2^s` and
`2^52 ≤ m ≤ 2^53`. -/
def rne53 (a b : Nat) : Nat × Nat :=
  let s := findShift a b 1200
  let n := a * 2 ^ s
  let q := n / b
  let r := n % b
  let m :=
    if 2 * r < b then q
    else if b < 2 * r then q + 1
    else if q % 2 = 0 then q else q + 1
  (m, s)

/-- The Python expression `int((c / t) * 100)` for naturals `c`, `t` with
`t > 0`: divide in binary64, multiply by 100 in binary64, truncate toward
zero. -/
def pyFloatPercent (c t : Nat) : Nat :=
  if c = 0 then 0
  else
    let p := rne53 c t
    let p2 := rne53 (100 * p.1) (2 ^ p.2)
    p2.1 / 2 ^ p2.2

/-- `update_progress` of web_crawler_unified.py lines 530–543 (identical
arithmetic in web_crawler_redbus.py lines 55–66), restricted to the progress
value it stores: `int((completed / total) * 100) if total > 0 else 0`. -/
def update_progress (completed total : Nat) : Nat :=
  if 0 < total then pyFloatPercent completed total else 0

/-! ### The sequential Redbus worker (`redbus_worker`, web_crawler_unified.py
lines 544–672)

The worker runs the task list sequentially.  Per task it emits a start log,
invokes the scraper, and on a non-empty result writes a CSV file and (when the
database connection succeeded) attempts a bulk insert; a bulk-insert exception
is caught by an inner try/except and logged as a warning, after which the task
is still counted successful.  An empty result counts as failed with a warning;
a scraper exception counts as failed with an error log.  The `finally` clause
increments `completed_tasks` and recomputes progress.  At the top of every
iteration the cooperative `is_running` flag is polled; if it was cleared, the
loop logs a warning and breaks.

A task is characterised for the model by its scrape outcome (raise, or return
`n` records) and by whether the bulk insert would raise.  The stop flag is
modelled by an optional index `stopAt`: the flag reads false at the check
before task `i` exactly when `stopAt = some k` with `k ≤ i`.  Timestamps,
socket events, the CSV write and `current_tasks` bookkeeping are omitted; the
CSV write is assumed not to raise. -/

/-- Log levels of `log_message` (web_crawler_unified.py lines 505–528).  Log
entries are modelled by their level; messages, timestamps and the socket
emission are dropped. -/
inductive LogLevel where
  | info
  | success
  | warning
  | error
deriving DecidableEq, Repr

/-- `log_message`: append an entry and keep only the last 100 entries. -/
def pushLog (logs : List LogLevel) (l : LogLevel) : List LogLevel :=
  let logs := logs ++ [l]
  if 100 < logs.length then logs.drop (logs.length - 100) else logs

/-- Outcome of `get_redbus_data` on one task: raise, or return a list of
`records` scraped records (`0` models an empty/falsy result). -/
inductive ScrapeOutcome where
  | raises
  | returns (records : Nat)
deriving DecidableEq, Repr

/-- Behaviour of the external collaborators on one task: the scrape outcome
and whether `db.insert_bulk_data` would raise (relevant only when the scrape
returns a non-empty result and the database connection is up). -/
structure TaskBehavior where
  scrape : ScrapeOutcome
  insertRaises : Bool
deriving DecidableEq, Repr

/-- The `stats` sub-dictionary of `crawling_state['redbus']`
(web_crawler_unified.py lines 476–486); `start_time`/`end_time` omitted. -/
structure Stats where
  total_scraped : Nat
  successful : Nat
  failed : Nat
deriving DecidableEq, Repr

/-- The `crawling_state['redbus']` dictionary (web_crawler_unified.py lines
474–487): running flag, progress, task counters, statistics and the bounded
log buffer. -/
structure RunState where
  is_running : Bool
  progress : Nat
  total_tasks : Nat
  completed_tasks : Nat
  stats : Stats
  logs : List LogLevel
deriving DecidableEq, Repr

/-- The all-zero statistics dictionary installed by the start endpoints. -/
def initialStats : Stats := ⟨0, 0, 0⟩

/-- A quiescent run state, as left by `start_crawling` just before the worker
thread begins. -/
def freshState (total : Nat) : RunState :=
  ⟨false, 0, total, 0, initialStats, []⟩

/-- The body of one iteration of the worker's task loop (web_crawler_unified.py
lines 595–642): start log, scrape, result handling, and the `finally` clause
(completed counter and progress). -/
def processTask (db : Bool) (st : RunState) (b : TaskBehavior) : RunState :=
  let st := { st with logs := pushLog st.logs .info }
  let st :=
    match b.scrape with
    | .raises =>
        { st with
          stats := { st.stats with failed := st.stats.failed + 1 }
          logs := pushLog st.logs .error }
    | .returns n =>
        if 0 < n then
          let st :=
            if db then
              { st with logs := pushLog st.logs (if b.insertRaises then .warning else .info) }
            else st
          { st with
            stats := { st.stats with
              successful := st.stats.successful + 1
              total_scraped := st.stats.total_scraped + n }
            logs := pushLog st.logs .success }
        else
          { st with
            stats := { st.stats with failed := st.stats.failed + 1 }
            logs := pushLog st.logs .warning }
  let st := { st with completed_tasks := st.completed_tasks + 1 }
  { st with progress := update_progress st.completed_tasks st.total_tasks }

/-- Whether the cooperative flag reads false at the check before task `idx`. -/
def stopObserved (stopAt : Option Nat) (idx : Nat) : Bool :=
  match stopAt with
  | none => false
  | some k => k ≤ idx

/-- The worker's `for idx, task_info in enumerate(tasks)` loop: poll the flag,
break with a warning if it was cleared, otherwise process the task and
continue. -/
def runTasks (db : Bool) (stopAt : Option Nat) (st : RunState) (idx : Nat) :
    List TaskBehavior → RunState
  | [] => st
  | b :: rest =>
      if stopObserved stopAt idx then
        { st with logs := pushLog st.logs .warning }
      else
        runTasks db stopAt (processTask db st b) (idx + 1) rest

/-- The worker's start-up (web_crawler_unified.py lines 557–581): raise the
running flag, zero the completed counter, emit the two start-up logs, and log
the database-connection outcome (a success log, or two warnings when the
`BusDatabase` constructor raised and the run continues without inserts).  The
extra logs emitted only when the advisory `max_buses`/`max_scroll`/filter
limits are set are not modelled, matching the default limits. -/
def workerInit (db : Bool) (st : RunState) : RunState :=
  let st := { st with is_running := true, completed_tasks := 0 }
  let st := { st with logs := pushLog (pushLog st.logs .info) .info }
  if db then { st with logs := pushLog st.logs .success }
  else { st with logs := pushLog (pushLog st.logs .warning) .warning }

/-- Driver initialisation and the task loop (web_crawler_unified.py lines
583–651): when `init_redbus_driver()` succeeds the loop runs and the
completion log is emitted afterwards (also after a stop-induced break); when
it raises, the outer except logs a fatal error and no task runs. -/
def workerLoopPhase (db driverOk : Bool) (stopAt : Option Nat)
    (tasks : List TaskBehavior) (st : RunState) : RunState :=
  if driverOk then
    let out := runTasks db stopAt st 0 tasks
    { out with logs := pushLog out.logs .success }
  else { st with logs := pushLog st.logs .error }

/-- The worker's `finally` clause (web_crawler_unified.py lines 653–672):
database-close log, clearing `is_running`, and a final progress update. -/
def workerFinish (db : Bool) (st : RunState) : RunState :=
  let st := if db then { st with logs := pushLog st.logs .info } else st
  let st := { st with is_running := false }
  { st with progress := update_progress st.completed_tasks st.total_tasks }

/-- `redbus_worker` (web_crawler_unified.py lines 544–672).  `db` records
whether the `BusDatabase` connection succeeded; `driverOk` records whether
`init_redbus_driver()` succeeded. -/
def redbus_worker (db driverOk : Bool) (stopAt : Option Nat)
    (tasks : List TaskBehavior) (st : RunState) : RunState :=
  workerFinish db (workerLoopPhase db driverOk stopAt tasks (workerInit db st))

/-- Accounting view of one task: 1 when the task counts as failed (scrape
raised, or returned an empty result), else 0.  The insert outcome plays no
role. -/
def scrapeFailed (b : TaskBehavior) : Nat :=
  match b.scrape with
  | .raises => 1
  | .returns n => if 0 < n then 0 else 1

/-- Accounting view of one task: 1 when the task counts as successful (the
scrape returned a non-empty result), else 0.  The insert outcome plays no
role. -/
def scrapeSucceeded (b : TaskBehavior) : Nat :=
  match b.scrape with
  | .raises => 0
  | .returns n => if 0 < n then 1 else 0

/-- Accounting view of one task: the number of records it contributes to
`total_scraped`. -/
def scrapeRecords (b : TaskBehavior) : Nat :=
  match b.scrape with
  | .raises => 0
  | .returns n => n

/-! ### Control endpoints (web_crawler_unified.py and api_v2_endpoints.py) -/

/-- Result of the stop endpoint. -/
inductive StopResult where
  | notRunning
  | stopping
deriving DecidableEq, Repr

/-- `stop_crawling` (web_crawler_unified.py lines 896–908): reject when not
running; otherwise clear the cooperative flag and log a warning.  The flag is
only read again by the worker between tasks. -/
def stop_crawling (st : RunState) : RunState × StopResult :=
  if st.is_running then
    ({ st with is_running := false, logs := pushLog st.logs .warning }, .stopping)
  else (st, .notRunning)

/-! ### Route registry (routes_manager.py) -/

/-- One entry of `routes_data["master_routes"]` (routes_manager.py); the
timestamp fields are omitted. -/
structure Route where
  id : String
  name : String
  origin : String
  destination : String
  category : String
  active : Bool
deriving DecidableEq, Repr

/-- The `routes_data` store of `RouteManager`: the master route list, and per
platform the `routes` dictionary mapping route id to URL template.
Dictionaries are modelled as association lists with distinct keys looked up
first-match. -/
structure Registry where
  master_routes : List Route
  platforms : List (String × List (String × String))
deriving DecidableEq, Repr

/-- First-match lookup in an association list (the model of `dict.get`). -/
def lookupStr {α : Type} (l : List (String × α)) (k : String) : Option α :=
  match l with
  | [] => none
  | (k', v) :: rest => if k' = k then some v else lookupStr rest k

/-- The scan loop of `RouteManager.get_route_by_name` (routes_manager.py
lines 182–187): first route whose `name` equals the argument. -/
def findRouteNamed (name : String) : List Route → Option Route
  | [] => none
  | r :: rest => if r.name = name then some r else findRouteNamed name rest

/-- `RouteManager.get_route_by_name` (routes_manager.py lines 182–187). -/
def get_route_by_name (reg : Registry) (name : String) : Option Route :=
  findRouteNamed name reg.master_routes

/-- `RouteManager.get_platform_url` (routes_manager.py lines 252–255):
`routes_data["platforms"][platform]["routes"][route_id]`, `None` when either
level is missing. -/
def get_platform_url (reg : Registry) (route_id platform : String) : Option String :=
  match lookupStr reg.platforms platform with
  | none => none
  | some routes => lookupStr routes route_id

/-! ### Date handling

`URLFormatter.validate_date_format` and `RouteManager._format_redbus_url` both
accept exactly the strings on which CPython's
`datetime.strptime(s, "%Y-%m-%d")` succeeds: four digits, a dash, a one- or
two-digit month in 1..12, a dash, a one- or two-digit day valid for that month
and year (with the whole string consumed), and year at least 1.  Digits are
modelled as ASCII digits. -/

/-- Gregorian leap-year test (as implemented by Python's `datetime`). -/
def isLeapYear (y : Nat) : Bool :=
  (y % 4 == 0 && y % 100 != 0) || y % 400 == 0

/-- Number of days of month `m` of year `y` (as validated by `datetime`). -/
def daysInMonth (y m : Nat) : Nat :=
  if m = 2 then (if isLeapYear y then 29 else 28)
  else if m = 4 ∨ m = 6 ∨ m = 9 ∨ m = 11 then 30
  else 31

/-- Split a character list at every dash (the `-` separators of the
`%Y-%m-%d` pattern); always returns one part more than the number of
dashes. -/
def splitDashes : List Char → List (List Char)
  | [] => [[]]
  | c :: rest =>
      let r := splitDashes rest
      if c = '-' then [] :: r
      else
        match r with
        | [] => [[c]]
        | h :: t => (c :: h) :: t

/-- The numeric value of a digit list. -/
def digitsVal (l : List Char) : Nat :=
  l.foldl (fun a c => 10 * a + (c.toNat - '0'.toNat)) 0

/-- `datetime.strptime(s, "%Y-%m-%d")`: `some (y, m, d)` on success, `none`
when the call raises `ValueError`.  CPython accepts exactly four digits for
`%Y`, one or two digits for `%m` and `%d`, requires the whole string to be
consumed, and then validates the calendar date (year at least 1, month 1–12,
day within the month). -/
def strptimeYMD (s : String) : Option (Nat × Nat × Nat) :=
  match splitDashes s.data with
  | [ys, ms, ds] =>
      if ys.length = 4 ∧ ys.all Char.isDigit
          ∧ (ms.length = 1 ∨ ms.length = 2) ∧ ms.all Char.isDigit
          ∧ (ds.length = 1 ∨ ds.length = 2) ∧ ds.all Char.isDigit then
        let y := digitsVal ys
        let m := digitsVal ms
        let d := digitsVal ds
        if 1 ≤ y ∧ 1 ≤ m ∧ m ≤ 12 ∧ 1 ≤ d ∧ d ≤ daysInMonth y m then
          some (y, m, d)
        else none
      else none
  | _ => none

/-- `URLFormatter.validate_date_format` (url_crawler_formatter.py lines
63–69): `(True, ...)` exactly when `strptime` succeeds. -/
def validate_date_format (date_str : String) : Bool × String :=
  match strptimeYMD date_str with
  | some _ => (true, "Valid date format")
  | none => (false, "Invalid date format. Expected YYYY-MM-DD")

/-- `strftime("%b")` in the C locale: the abbreviated month name. -/
def monthAbbrev : Nat → String
  | 1 => "Jan" | 2 => "Feb" | 3 => "Mar" | 4 => "Apr" | 5 => "May" | 6 => "Jun"
  | 7 => "Jul" | 8 => "Aug" | 9 => "Sep" | 10 => "Oct" | 11 => "Nov" | 12 => "Dec"
  | _ => ""

/-- Left-pad with zeros to the given width: Python's `str.zfill` on an
unsigned digit string. -/
def pyZfill (width : Nat) (s : String) : String :=
  if width ≤ s.data.length then s
  else String.mk (List.replicate (width - s.data.length) '0' ++ s.data)

/-- Replace the leftmost occurrences of `pat` (non-overlapping, left to
right) by `rep`, with fuel bounding the scan; the model of Python's
`str.replace` for the non-empty placeholder patterns used here. -/
def replaceAux (pat rep : List Char) : Nat → List Char → List Char
  | 0, l => l
  | _ + 1, [] => []
  | fuel + 1, c :: rest =>
      if pat.isPrefixOf (c :: rest) then
        rep ++ replaceAux pat rep fuel (rest.drop (pat.length - 1))
      else c :: replaceAux pat rep fuel rest

/-- Python's `str.replace` (all occurrences, left to right); the empty
pattern, which no call site uses, leaves the string unchanged. -/
def pyReplace (s pat rep : String) : String :=
  if pat.data.isEmpty then s
  else String.mk (replaceAux pat.data rep.data (s.data.length + 1) s.data)

/-- `RouteManager._format_redbus_url` (routes_manager.py lines 301–317):
substitute `[[DAY]]` (two-digit), `[[MONTH]]` (abbreviated name) and
`[[YEAR]]` into the template; on a `ValueError` from `strptime` the template
is returned unchanged. -/
def format_redbus_url (url_template date_str : String) : String :=
  match strptimeYMD date_str with
  | some (y, m, d) =>
      let day := pyZfill 2 (toString d)
      let month := monthAbbrev m
      let year := toString y
      pyReplace (pyReplace (pyReplace url_template "[[DAY]]" day)
        "[[MONTH]]" month) "[[YEAR]]" year
  | none => url_template

/-- `RouteManager.format_url_for_date` (routes_manager.py lines 284–299):
look up the platform template and substitute the date (redbus placeholders,
traveloka/generic `[[DATE]]`). -/
def format_url_for_date (reg : Registry) (route_id platform date_str : String) :
    Option String :=
  match get_platform_url reg route_id platform with
  | none => none
  | some tpl =>
      if platform = "redbus" then some (format_redbus_url tpl date_str)
      else some (pyReplace tpl "[[DATE]]" date_str)

/-! ### Task generators -/

/-- A task produced by `CrawlTaskGenerator.generate_redbus_tasks`
(url_crawler_formatter.py lines 96–130). -/
structure CrawlTask where
  route_id : String
  route_name : String
  date : String
  url : Option String
  platform : String
  origin : String
  destination : String
deriving DecidableEq, Repr

/-- The warnings `generate_redbus_tasks` prints, identified by the skip
reason. -/
inductive GenWarning where
  | routeNotFound (name : String)
  | noRedbusUrl (name : String)
  | invalidDate (date : String)
deriving DecidableEq, Repr

/-- The inner date loop of `generate_redbus_tasks` for one route that passed
the route and template checks. -/
def genTasksForDates (reg : Registry) (route : Route) :
    List String → List CrawlTask × List GenWarning
  | [] => ([], [])
  | d :: rest =>
      let acc := genTasksForDates reg route rest
      if (validate_date_format d).1 then
        (⟨route.id, route.name, d, format_url_for_date reg route.id "redbus" d,
            "redbus", route.origin, route.destination⟩ :: acc.1,
          acc.2)
      else (acc.1, .invalidDate d :: acc.2)

/-- `CrawlTaskGenerator.generate_redbus_tasks` (url_crawler_formatter.py lines
96–130): per route, skip with one warning when the route does not exist or has
no redbus template; otherwise validate each date, skipping invalid ones with a
warning, and emit one task per remaining date.  The returned warning list
collects the printed warnings in order. -/
def generate_redbus_tasks (reg : Registry) :
    List String → List String → List CrawlTask × List GenWarning
  | [], _ => ([], [])
  | name :: rest, dates =>
      let acc := generate_redbus_tasks reg rest dates
      match get_route_by_name reg name with
      | none => (acc.1, .routeNotFound name :: acc.2)
      | some route =>
          match get_platform_url reg route.id "redbus" with
          | none => (acc.1, .noRedbusUrl name :: acc.2)
          | some _ =>
              let this := genTasksForDates reg route dates
              (this.1 ++ acc.1, this.2 ++ acc.2)

/-- A task dictionary of the `CrawlTaskGenerator` copy inside
web_crawler_unified.py (lines 411–441): only route name, url and date. -/
structure UnifiedTask where
  route : String
  url : Option String
  date : String
deriving DecidableEq, Repr

/-- The `CrawlTaskGenerator.generate_redbus_tasks` copy in
web_crawler_unified.py lines 418–441: same skip conditions, but it prints no
warnings and performs no date validation. -/
def unified_generate_redbus_tasks (reg : Registry) :
    List String → List String → List UnifiedTask
  | [], _ => []
  | name :: rest, dates =>
      let acc := unified_generate_redbus_tasks reg rest dates
      match get_route_by_name reg name with
      | none => acc
      | some route =>
          match get_platform_url reg route.id "redbus" with
          | none => acc
          | some _ =>
              (dates.map fun d =>
                ⟨name, format_url_for_date reg route.id "redbus" d, d⟩) ++ acc

/-! ### Start endpoints -/

/-- Python's `s.isdigit()` restricted to ASCII: non-empty and all characters
digits. -/
def pyIsdigit (s : String) : Bool :=
  !s.data.isEmpty && s.data.all Char.isDigit

/-- The date expansion of `start_crawling` (web_crawler_unified.py lines
856–863, identically web_crawler_redbus.py lines 241–246): a purely numeric
day string of at most two characters becomes `2025-12-` plus the zero-padded
day; anything else passes through unchanged. -/
def convert_selected_date (date : String) : String :=
  if pyIsdigit date && date.data.length ≤ 2 then "2025-12-" ++ pyZfill 2 date
  else date

/-- Body of a start request (web_crawler_unified.py lines 814–844); the
advisory `max_buses`/`max_scroll`/`bus_names` limits are passed through to the
scraper and do not affect the orchestrator control flow, so they are not
modelled. -/
structure StartRequest where
  routes : List String
  dates : List String
deriving DecidableEq, Repr

/-- Result of the unified start endpoint. -/
inductive StartResult where
  | invalidPlatform
  | alreadyRunning
  | started (total_tasks : Nat)
deriving DecidableEq, Repr

/-- `start_crawling` (web_crawler_unified.py lines 805–893): reject an unknown
platform; reject with an already-running error while a run is active (before
touching any state); otherwise reset statistics, log buffer, progress and the
completed counter, expand the selected dates, generate the tasks with the
unified generator and store the task count.  The worker thread launch is not
part of the returned state. -/
def start_crawling (reg : Registry) (st : RunState) (platform : String)
    (req : StartRequest) : RunState × StartResult :=
  if platform ≠ "redbus" then (st, .invalidPlatform)
  else if st.is_running then (st, .alreadyRunning)
  else
    let st := { st with stats := initialStats, logs := [], progress := 0,
                        completed_tasks := 0 }
    let dates := req.dates.map convert_selected_date
    let tasks := unified_generate_redbus_tasks reg req.routes dates
    ({ st with total_tasks := tasks.length }, .started tasks.length)

/-- Result of the API v2 start endpoint. -/
inductive ApiV2Result where
  | unsupportedPlatform
  | alreadyRunning
  | missingParams
  | noValidTasks
  | started (total_tasks : Nat)
deriving DecidableEq, Repr

/-- `api_v2_start_crawling` (api_v2_endpoints.py lines 51–130): platform
check, already-running check (HTTP 409) before any mutation, missing
routes/dates check, then the same reset followed by task generation (dates are
not expanded here); an empty task list is rejected after the reset. -/
def api_v2_start_crawling (reg : Registry) (st : RunState) (platform : String)
    (req : StartRequest) : RunState × ApiV2Result :=
  if platform ≠ "redbus" then (st, .unsupportedPlatform)
  else if st.is_running then (st, .alreadyRunning)
  else if req.routes.isEmpty || req.dates.isEmpty then (st, .missingParams)
  else
    let st := { st with stats := initialStats, logs := [], progress := 0,
                        completed_tasks := 0 }
    let tasks := unified_generate_redbus_tasks reg req.routes req.dates
    if tasks.isEmpty then (st, .noValidTasks)
    else ({ st with total_tasks := tasks.length }, .started tasks.length)

/-! ### The crawl-sequence migration (migrate_add_crawl_sequence.py) -/

/-- One row of the `SELECT id, route_name, route_date, DATE(crawl_timestamp)
... ORDER BY route_name, route_date, crawl_timestamp` scan
(migrate_add_crawl_sequence.py lines 160–187); `crawl_date` is the calendar
capture day. -/
structure DbRow where
  id : Nat
  route_name : String
  route_date : String
  crawl_date : String
deriving DecidableEq, Repr

/-- The dictionary key `f"{route_name}|{route_date}|{crawl_date}"` of
migrate_add_crawl_sequence.py line 212. -/
def rowKey (r : DbRow) : String :=
  r.route_name ++ "|" ++ r.route_date ++ "|" ++ r.crawl_date

/-- Read a tracker entry (`dict` access). -/
def trackerGet (tr : List (String × Nat)) (k : String) : Option Nat :=
  lookupStr tr k

/-- Write a tracker entry (`dict` assignment): replace the binding if present,
else append it. -/
def trackerSet (tr : List (String × Nat)) (k : String) (v : Nat) :
    List (String × Nat) :=
  match tr with
  | [] => [(k, v)]
  | (k', v') :: rest =>
      if k' = k then (k', v) :: rest else (k', v') :: trackerSet rest k v

/-- The per-record loop of `update_existing_records`
(migrate_add_crawl_sequence.py lines 195–221): initialise the key at 0 when
absent, increment it, and append `(sequence_num, record_id)` to the update
list. -/
def assignSeqAux (tr : List (String × Nat)) : List DbRow → List (Nat × Nat)
  | [] => []
  | r :: rest =>
      let seq := (trackerGet tr (rowKey r)).getD 0 + 1
      (seq, r.id) :: assignSeqAux (trackerSet tr (rowKey r) seq) rest

/-- `update_existing_records` (migrate_add_crawl_sequence.py lines 153–248)
restricted to the sequence assignment it computes: the `(sequence_num, id)`
update pairs, in scan order, starting from an empty tracker. -/
def update_existing_records (rows : List DbRow) : List (Nat × Nat) :=
  assignSeqAux [] rows

/-- Two rows agree on the (route_name, route_date, calendar capture day)
triple. -/
def sameTriple (a b : DbRow) : Bool :=
  a.route_name == b.route_name && a.route_date == b.route_date
    && a.crawl_date == b.crawl_date

/-- Specification-side description of the migration: each row receives one
plus the number of earlier rows sharing its triple. -/
def seqSpec (prev : List DbRow) : List DbRow → List (Nat × Nat)
  | [] => []
  | r :: rest =>
      ((prev.filter fun x => sameTriple x r).length + 1, r.id)
        :: seqSpec (prev ++ [r]) rest

/-- A row whose `route_date` and `crawl_date` contain no `|` separator (true
of every date-shaped value the crawler stores). -/
@[reducible]
def pipeFree (r : DbRow) : Prop :=
  ¬ '|' ∈ r.route_date.data ∧ ¬ '|' ∈ r.crawl_date.data

/-! ### The dedup fingerprint (database.py) -/

/-- A stored listing record, all fields modelled as the strings that enter the
f-string of `_generate_hash`. -/
structure BusData where
  platform : String
  route_name : String
  route_date : String
  bus_name : String
  bus_type : String
  departing_time : String
  duration : String
  reaching_time : String
  star_rating : String
  price : String
  seat_availability : String
deriving DecidableEq, Repr

/-- The pipe-joined string `f"{platform}|{route_name}|{route_date}|{bus_name}|
{departing_time}|{price}"` hashed by `BusDatabase._generate_hash`
(database.py lines 387–399). -/
def uniqueStr (d : BusData) : String :=
  d.platform ++ "|" ++ d.route_name ++ "|" ++ d.route_date ++ "|"
    ++ d.bus_name ++ "|" ++ d.departing_time ++ "|" ++ d.price

/-- `BusDatabase._generate_hash`: the SHA-256 hex digest of `uniqueStr`.  The
hash itself is an external primitive (`hashlib.sha256`), modelled as an
arbitrary pure function supplied as a parameter; every property proved below
holds for any such function. -/
def generate_hash (sha256hex : String → String) (d : BusData) : String :=
  sha256hex (uniqueStr d)

/-! ## Theorems -/

theorem processTask_stats (db : Bool) (st : RunState) (b : TaskBehavior) :
    (processTask db st b).stats.failed = st.stats.failed + scrapeFailed b ∧
    (processTask db st b).stats.successful = st.stats.successful + scrapeSucceeded b ∧
    (processTask db st b).stats.total_scraped = st.stats.total_scraped + scrapeRecords b ∧
    (processTask db st b).completed_tasks = st.completed_tasks + 1 ∧
    (processTask db st b).is_running = st.is_running ∧
    (processTask db st b).total_tasks = st.total_tasks := by
  rcases b with ⟨s, ins⟩
  cases s with
  | raises => simp [processTask, scrapeFailed, scrapeSucceeded, scrapeRecords]
  | returns n =>
      by_cases h : 0 < n <;> cases db <;>
        simp [processTask, scrapeFailed, scrapeSucceeded, scrapeRecords, h] <;> omega

/-- Statistics accounting for the task loop when the stop flag is never
observed: each task contributes exactly its accounting view, and the
completed-task counter advances once per task. -/
theorem runTasks_none_spec (db : Bool) (tasks : List TaskBehavior) :
    ∀ (st : RunState) (idx : Nat),
      (runTasks db none st idx tasks).stats.failed
        = st.stats.failed + (tasks.map scrapeFailed).sum ∧
      (runTasks db none st idx tasks).stats.successful
        = st.stats.successful + (tasks.map scrapeSucceeded).sum ∧
      (runTasks db none st idx tasks).stats.total_scraped
        = st.stats.total_scraped + (tasks.map scrapeRecords).sum ∧
      (runTasks db none st idx tasks).completed_tasks
        = st.completed_tasks + tasks.length ∧
      (runTasks db none st idx tasks).is_running = st.is_running ∧
      (runTasks db none st idx tasks).total_tasks = st.total_tasks := by
  induction tasks with
  | nil => intro st idx; simp [runTasks]
  | cons b rest ih =>
      intro st idx
      have hb := processTask_stats db st b
      have hr := ih (processTask db st b) (idx + 1)
      simp only [runTasks, stopObserved, Bool.false_eq_true, ite_false,
        List.map_cons, List.sum_cons, List.length_cons]
      exact ⟨by omega, by omega, by omega, by omega,
        by rw [hr.2.2.2.2.1, hb.2.2.2.2.1], by rw [hr.2.2.2.2.2, hb.2.2.2.2.2]⟩

theorem runTasks_none_failed (db : Bool) (tasks : List TaskBehavior)
    (st : RunState) (idx : Nat) :
    (runTasks db none st idx tasks).stats.failed
      = st.stats.failed + (tasks.map scrapeFailed).sum :=
  (runTasks_none_spec db tasks st idx).1

theorem runTasks_none_successful (db : Bool) (tasks : List TaskBehavior)
    (st : RunState) (idx : Nat) :
    (runTasks db none st idx tasks).stats.successful
      = st.stats.successful + (tasks.map scrapeSucceeded).sum :=
  (runTasks_none_spec db tasks st idx).2.1

theorem runTasks_none_scraped (db : Bool) (tasks : List TaskBehavior)
    (st : RunState) (idx : Nat) :
    (runTasks db none st idx tasks).stats.total_scraped
      = st.stats.total_scraped + (tasks.map scrapeRecords).sum :=
  (runTasks_none_spec db tasks st idx).2.2.1

theorem runTasks_none_completed (db : Bool) (tasks : List TaskBehavior)
    (st : RunState) (idx : Nat) :
    (runTasks db none st idx tasks).completed_tasks
      = st.completed_tasks + tasks.length :=
  (runTasks_none_spec db tasks st idx).2.2.2.1

theorem runTasks_none_total (db : Bool) (tasks : List TaskBehavior)
    (st : RunState) (idx : Nat) :
    (runTasks db none st idx tasks).total_tasks = st.total_tasks :=
  (runTasks_none_spec db tasks st idx).2.2.2.2.2

theorem workerInit_spec (db : Bool) (st : RunState) :
    (workerInit db st).stats = st.stats ∧
    (workerInit db st).completed_tasks = 0 ∧
    (workerInit db st).total_tasks = st.total_tasks := by
  cases db <;> simp [workerInit]

theorem workerFinish_spec (db : Bool) (st : RunState) :
    (workerFinish db st).stats = st.stats ∧
    (workerFinish db st).completed_tasks = st.completed_tasks ∧
    (workerFinish db st).total_tasks = st.total_tasks ∧
    (workerFinish db st).is_running = false ∧
    (workerFinish db st).progress
      = update_progress st.completed_tasks st.total_tasks := by
  cases db <;> simp [workerFinish]

theorem workerLoopPhase_true (db : Bool) (stopAt : Option Nat)
    (tasks : List TaskBehavior) (st : RunState) :
    (workerLoopPhase db true stopAt tasks st).stats
        = (runTasks db stopAt st 0 tasks).stats ∧
    (workerLoopPhase db true stopAt tasks st).completed_tasks
        = (runTasks db stopAt st 0 tasks).completed_tasks ∧
    (workerLoopPhase db true stopAt tasks st).total_tasks
        = (runTasks db stopAt st 0 tasks).total_tasks := by
  simp [workerLoopPhase]

theorem workerLoopPhase_false (db : Bool) (stopAt : Option Nat)
    (tasks : List TaskBehavior) (st : RunState) :
    (workerLoopPhase db false stopAt tasks st).stats = st.stats ∧
    (workerLoopPhase db false stopAt tasks st).completed_tasks
        = st.completed_tasks ∧
    (workerLoopPhase db false stopAt tasks st).total_tasks = st.total_tasks := by
  simp [workerLoopPhase]

/-- Accounting for a full `redbus_worker` run with a successful driver start
and no stop request: statistics grow by exactly the per-task accounting views,
the completed counter ends at the task-list length, and the run ends
not-running. -/
theorem redbus_worker_none_spec (db : Bool) (tasks : List TaskBehavior)
    (st : RunState) :
    (redbus_worker db true none tasks st).stats.failed
        = st.stats.failed + (tasks.map scrapeFailed).sum ∧
    (redbus_worker db true none tasks st).stats.successful
        = st.stats.successful + (tasks.map scrapeSucceeded).sum ∧
    (redbus_worker db true none tasks st).stats.total_scraped
        = st.stats.total_scraped + (tasks.map scrapeRecords).sum ∧
    (redbus_worker db true none tasks st).completed_tasks = tasks.length ∧
    (redbus_worker db true none tasks st).is_running = false ∧
    (redbus_worker db true none tasks st).total_tasks = st.total_tasks := by
  have hi := workerInit_spec db st
  have hl := workerLoopPhase_true db none tasks (workerInit db st)
  have hf := workerFinish_spec db
      (workerLoopPhase db true none tasks (workerInit db st))
  have hr := runTasks_none_spec db tasks (workerInit db st) 0
  simp only [redbus_worker]
  refine ⟨?_, ?_, ?_, ?_, hf.2.2.2.1, ?_⟩
  · rw [hf.1, hl.1, hr.1, hi.1]
  · rw [hf.1, hl.1, (runTasks_none_spec db tasks (workerInit db st) 0).2.1, hi.1]
  · rw [hf.1, hl.1, (runTasks_none_spec db tasks (workerInit db st) 0).2.2.1, hi.1]
  · rw [hf.2.1, hl.2.1, (runTasks_none_spec db tasks (workerInit db st) 0).2.2.2.1,
      hi.2.1, Nat.zero_add]
  · rw [hf.2.2.1, hl.2.2, (runTasks_none_spec db tasks (workerInit db st) 0).2.2.2.2.2,
      hi.2.2]

/-- Refinement of the cooperative stop: a loop whose flag reads cleared at the
check before task `k` agrees, on statistics and counters, with an unstopped
loop over the first `k - idx` remaining tasks. -/
theorem runTasks_stop_spec (db : Bool) (k : Nat) (tasks : List TaskBehavior) :
    ∀ (st : RunState) (idx : Nat),
      (runTasks db (some k) st idx tasks).stats
        = (runTasks db none st idx (tasks.take (k - idx))).stats ∧
      (runTasks db (some k) st idx tasks).completed_tasks
        = (runTasks db none st idx (tasks.take (k - idx))).completed_tasks ∧
      (runTasks db (some k) st idx tasks).is_running
        = (runTasks db none st idx (tasks.take (k - idx))).is_running ∧
      (runTasks db (some k) st idx tasks).total_tasks
        = (runTasks db none st idx (tasks.take (k - idx))).total_tasks := by
  induction tasks with
  | nil => intro st idx; simp [runTasks]
  | cons b rest ih =>
      intro st idx
      by_cases h : k ≤ idx
      · have hk : k - idx = 0 := Nat.sub_eq_zero_of_le h
        simp [runTasks, stopObserved, h, hk]
      · have hk : k - idx = (k - (idx + 1)) + 1 := by omega
        have hobs : stopObserved (some k) idx = false := by
          simp [stopObserved, h]
        rw [hk]
        simp only [runTasks, hobs, Bool.false_eq_true, ite_false,
          List.take_succ_cons]
        exact ih (processTask db st b) (idx + 1)

theorem runTasks_stop_stats (db : Bool) (k : Nat) (tasks : List TaskBehavior)
    (st : RunState) (idx : Nat) :
    (runTasks db (some k) st idx tasks).stats
      = (runTasks db none st idx (tasks.take (k - idx))).stats :=
  (runTasks_stop_spec db k tasks st idx).1

theorem runTasks_stop_completed (db : Bool) (k : Nat) (tasks : List TaskBehavior)
    (st : RunState) (idx : Nat) :
    (runTasks db (some k) st idx tasks).completed_tasks
      = (runTasks db none st idx (tasks.take (k - idx))).completed_tasks :=
  (runTasks_stop_spec db k tasks st idx).2.1

theorem runTasks_stop_total (db : Bool) (k : Nat) (tasks : List TaskBehavior)
    (st : RunState) (idx : Nat) :
    (runTasks db (some k) st idx tasks).total_tasks
      = (runTasks db none st idx (tasks.take (k - idx))).total_tasks :=
  (runTasks_stop_spec db k tasks st idx).2.2.2

/-- A stopped worker run agrees with an unstopped run of the first `k` tasks
on statistics, counters and progress, and ends not-running. -/
theorem redbus_worker_stop_spec (db : Bool) (k : Nat)
    (tasks : List TaskBehavior) (st : RunState) :
    (redbus_worker db true (some k) tasks st).stats
      = (redbus_worker db true none (tasks.take k) st).stats ∧
    (redbus_worker db true (some k) tasks st).completed_tasks
      = (redbus_worker db true none (tasks.take k) st).completed_tasks ∧
    (redbus_worker db true (some k) tasks st).progress
      = (redbus_worker db true none (tasks.take k) st).progress ∧
    (redbus_worker db true (some k) tasks st).is_running = false := by
  have h0 : ∀ st' : RunState,
      (runTasks db (some k) st' 0 tasks).stats
        = (runTasks db none st' 0 (tasks.take k)).stats ∧
      (runTasks db (some k) st' 0 tasks).completed_tasks
        = (runTasks db none st' 0 (tasks.take k)).completed_tasks ∧
      (runTasks db (some k) st' 0 tasks).total_tasks
        = (runTasks db none st' 0 (tasks.take k)).total_tasks := by
    intro st'
    have h := runTasks_stop_spec db k tasks st' 0
    rw [Nat.sub_zero] at h
    exact ⟨h.1, h.2.1, h.2.2.2⟩
  have hls := workerLoopPhase_true db (some k) tasks (workerInit db st)
  have hln := workerLoopPhase_true db none (tasks.take k) (workerInit db st)
  have hfs := workerFinish_spec db
      (workerLoopPhase db true (some k) tasks (workerInit db st))
  have hfn := workerFinish_spec db
      (workerLoopPhase db true none (tasks.take k) (workerInit db st))
  have hc := (h0 (workerInit db st)).2.1
  have hs := (h0 (workerInit db st)).1
  have ht := (h0 (workerInit db st)).2.2
  simp only [redbus_worker]
  refine ⟨?_, ?_, ?_, hfs.2.2.2.1⟩
  · rw [hfs.1, hfn.1, hls.1, hln.1, hs]
  · rw [hfs.2.1, hfn.2.1, hls.2.1, hln.2.1, hc]
  · rw [hfs.2.2.2.2, hfn.2.2.2.2, hls.2.1, hln.2.1, hls.2.2, hln.2.2, hc, ht]

/-- Each task moves the success/failure partition in lockstep with the
completed counter: one task contributes exactly one to one of the two. -/
theorem scrapePartition (b : TaskBehavior) :
    scrapeSucceeded b + scrapeFailed b = 1 := by
  rcases b with ⟨s, i⟩
  cases s with
  | raises => simp [scrapeSucceeded, scrapeFailed]
  | returns n => by_cases h : 0 < n <;> simp [scrapeSucceeded, scrapeFailed, h]

/-- The counting invariant `successful + failed = completed_tasks` is
preserved by the task loop, whatever the stop schedule. -/
theorem runTasks_inv (db : Bool) (stopAt : Option Nat)
    (tasks : List TaskBehavior) :
    ∀ (st : RunState) (idx : Nat),
      st.stats.successful + st.stats.failed = st.completed_tasks →
      (runTasks db stopAt st idx tasks).stats.successful
          + (runTasks db stopAt st idx tasks).stats.failed
        = (runTasks db stopAt st idx tasks).completed_tasks := by
  induction tasks with
  | nil => intro st idx h; simpa [runTasks] using h
  | cons b rest ih =>
      intro st idx h
      cases hobs : stopObserved stopAt idx with
      | true => simpa [runTasks, hobs] using h
      | false =>
          simp only [runTasks, hobs, Bool.false_eq_true, ite_false]
          refine ih (processTask db st b) (idx + 1) ?_
          have hb := processTask_stats db st b
          have hp := scrapePartition b
          omega

/-- The counting invariant holds at the end of any worker run started with
zeroed statistics, whatever the collaborators and the stop schedule do. -/
theorem redbus_worker_inv (db driverOk : Bool) (stopAt : Option Nat)
    (tasks : List TaskBehavior) (st : RunState)
    (h : st.stats.successful + st.stats.failed = 0) :
    (redbus_worker db driverOk stopAt tasks st).stats.successful
        + (redbus_worker db driverOk stopAt tasks st).stats.failed
      = (redbus_worker db driverOk stopAt tasks st).completed_tasks := by
  have hi := workerInit_spec db st
  have hinv : (workerInit db st).stats.successful
      + (workerInit db st).stats.failed = (workerInit db st).completed_tasks := by
    rw [hi.1, hi.2.1, h]
  have hloop : (workerLoopPhase db driverOk stopAt tasks (workerInit db st)).stats.successful
      + (workerLoopPhase db driverOk stopAt tasks (workerInit db st)).stats.failed
      = (workerLoopPhase db driverOk stopAt tasks (workerInit db st)).completed_tasks := by
    cases driverOk with
    | false =>
        have hl := workerLoopPhase_false db stopAt tasks (workerInit db st)
        rw [hl.1, hl.2.1]
        exact hinv
    | true =>
        have hl := workerLoopPhase_true db stopAt tasks (workerInit db st)
        rw [hl.1, hl.2.1]
        exact runTasks_inv db stopAt tasks (workerInit db st) 0 hinv
  have hf := workerFinish_spec db
      (workerLoopPhase db driverOk stopAt tasks (workerInit db st))
  simp only [redbus_worker]
  rw [hf.1, hf.2.1]
  exact hloop

/-! ## Claim theorems -/

/-- C1 counterexample: in a one-task run whose scrape returns two records and
whose database bulk insert raises, the exception is caught by the inner
try/except, `failed` stays 0, the task is counted successful, and no
error-level event is logged (the insert failure is logged as a warning) —
refuting the claim that an exception from the persistence insert increments
`failed_tasks` and logs an error event. -/
theorem C1_counterexample :
    (redbus_worker true true none [⟨.returns 2, true⟩]
        (freshState 1)).stats.failed = 0 ∧
    (redbus_worker true true none [⟨.returns 2, true⟩]
        (freshState 1)).stats.successful = 1 ∧
    (redbus_worker true true none [⟨.returns 2, true⟩]
        (freshState 1)).logs.count LogLevel.error = 0 ∧
    (redbus_worker true true none [⟨.returns 2, true⟩]
        (freshState 1)).completed_tasks = 1 := by
  decide

/-- C1 (amended): for every task list run by the sequential worker, a Scraper
exception is caught, counted in `failed_tasks` and logged as an error, and the
run continues; a persistence-insert exception is caught and logged as a
warning but the task is still counted successful; in all cases every task
completes, so a 5-task run where only task 3's scrape raises ends with
`failed_tasks = 1`, `successful = 4` and `completed_tasks = 5` — one task's
failure never aborts the run. -/
theorem C1_failure_isolation :
    (∀ (db : Bool) (tasks : List TaskBehavior) (st : RunState),
        (redbus_worker db true none tasks st).completed_tasks = tasks.length ∧
        (redbus_worker db true none tasks st).stats.failed
          = st.stats.failed + (tasks.map scrapeFailed).sum ∧
        (redbus_worker db true none tasks st).stats.successful
          = st.stats.successful + (tasks.map scrapeSucceeded).sum ∧
        (redbus_worker db true none tasks st).is_running = false) ∧
    ((redbus_worker true true none
        [⟨.returns 3, false⟩, ⟨.returns 2, false⟩, ⟨.raises, false⟩,
         ⟨.returns 1, false⟩, ⟨.returns 4, false⟩]
        (freshState 5)).stats.failed = 1 ∧
      (redbus_worker true true none
        [⟨.returns 3, false⟩, ⟨.returns 2, false⟩, ⟨.raises, false⟩,
         ⟨.returns 1, false⟩, ⟨.returns 4, false⟩]
        (freshState 5)).completed_tasks = 5 ∧
      (redbus_worker true true none
        [⟨.returns 3, false⟩, ⟨.returns 2, false⟩, ⟨.raises, false⟩,
         ⟨.returns 1, false⟩, ⟨.returns 4, false⟩]
        (freshState 5)).stats.successful = 4 ∧
      (redbus_worker true true none
        [⟨.returns 3, false⟩, ⟨.returns 2, false⟩, ⟨.raises, false⟩,
         ⟨.returns 1, false⟩, ⟨.returns 4, false⟩]
        (freshState 5)).logs.count LogLevel.error = 1) := by
  constructor
  · intro db tasks st
    have h := redbus_worker_none_spec db tasks st
    exact ⟨h.2.2.2.1, h.1, h.2.1, h.2.2.2.2.1⟩
  · decide

/-- C2 (confirmed): when the stop flag is cleared while task `k - 1` is in
flight (so the worker observes it at the between-task check before task `k`),
the in-flight task finishes and is recorded: the final statistics, completed
counter and progress are those of an unstopped run of exactly the first `k`
tasks, `completed_tasks` ends at `min k tasks.length` (no later task is ever
dispatched), and the run ends not-running; moreover the stop operation itself
always leaves the flag cleared. -/
theorem C2_stop_observed_between_tasks :
    (∀ (db : Bool) (tasks : List TaskBehavior) (k : Nat) (st : RunState),
        (redbus_worker db true (some k) tasks st).stats
          = (redbus_worker db true none (tasks.take k) st).stats ∧
        (redbus_worker db true (some k) tasks st).completed_tasks
          = min k tasks.length ∧
        (redbus_worker db true (some k) tasks st).progress
          = (redbus_worker db true none (tasks.take k) st).progress ∧
        (redbus_worker db true (some k) tasks st).is_running = false) ∧
    (∀ st : RunState, ((stop_crawling st).1).is_running = false) := by
  constructor
  · intro db tasks k st
    have h := redbus_worker_stop_spec db k tasks st
    refine ⟨h.1, ?_, h.2.2.1, h.2.2.2⟩
    rw [h.2.1, (redbus_worker_none_spec db (tasks.take k) st).2.2.2.1,
      List.length_take]
  · intro st
    by_cases h : st.is_running = true <;> simp [stop_crawling, h]

/-- C9 (confirmed): the invariant `successful + failed = completed_tasks` is
preserved by every step of the task loop under any stop schedule — each
completed task is counted exactly once as a success or a failure, including
when the database insert for a non-empty result raises — and it holds at the
end of any worker run that starts from zeroed statistics. -/
theorem C9_success_failure_partition :
    (∀ (db : Bool) (stopAt : Option Nat) (tasks : List TaskBehavior)
        (st : RunState) (idx : Nat),
        st.stats.successful + st.stats.failed = st.completed_tasks →
        (runTasks db stopAt st idx tasks).stats.successful
            + (runTasks db stopAt st idx tasks).stats.failed
          = (runTasks db stopAt st idx tasks).completed_tasks) ∧
    (∀ (db driverOk : Bool) (stopAt : Option Nat) (tasks : List TaskBehavior)
        (st : RunState),
        st.stats.successful + st.stats.failed = 0 →
        (redbus_worker db driverOk stopAt tasks st).stats.successful
            + (redbus_worker db driverOk stopAt tasks st).stats.failed
          = (redbus_worker db driverOk stopAt tasks st).completed_tasks) :=
  ⟨fun db stopAt tasks st idx h => runTasks_inv db stopAt tasks st idx h,
   fun db driverOk stopAt tasks st h =>
     redbus_worker_inv db driverOk stopAt tasks st h⟩

/-- C9 witness: the invariant at a concrete two-task run (one insert-raising
success, one scraper failure) stopped by no one. -/
theorem C9_witness :
    (redbus_worker true true none [⟨.returns 2, true⟩, ⟨.raises, false⟩]
        (freshState 2)).stats.successful
      + (redbus_worker true true none [⟨.returns 2, true⟩, ⟨.raises, false⟩]
        (freshState 2)).stats.failed
      = (redbus_worker true true none [⟨.returns 2, true⟩, ⟨.raises, false⟩]
        (freshState 2)).completed_tasks :=
  C9_success_failure_partition.2 true true none
    [⟨.returns 2, true⟩, ⟨.raises, false⟩] (freshState 2) rfl

/-- C3 counterexample: at `completed = 29`, `total = 50` the code stores
`int((29/50)*100) = 57` (binary64 rounding puts `0.58 * 100` just below 58),
while exact truncation `floor(100*29/50)` is 58 — refuting the claim that the
progress update always equals the exact integer truncation. -/
theorem C3_counterexample :
    update_progress 29 50 = 57 ∧ 100 * 29 / 50 = 58 := by
  decide

set_option maxHeartbeats 4000000 in
set_option maxRecDepth 100000 in
/-- C3 (amended): the progress-update operation sets progress to 0 when
`total_tasks = 0`, and otherwise to the truncation toward zero of the
binary64 evaluation of `(completed / total) * 100`; this agrees with
`floor(100 * completed / total)` for every `total < 50` (checked
exhaustively), but not in general: float rounding can land one below the
exact value, the smallest case being `completed = 29`, `total = 50`, which
yields 57 instead of 58. -/
theorem C3_progress_truncation :
    (∀ c : Nat, update_progress c 0 = 0) ∧
    (∀ t : Nat, t < 50 → ∀ c : Nat, c ≤ t → update_progress c t = 100 * c / t) ∧
    update_progress 29 50 = 57 := by
  refine ⟨fun c => rfl, ?_, by decide⟩
  decide

/-- C3 witness: the amended theorem applied at `completed = 3`,
`total = 4`. -/
theorem C3_witness : update_progress 3 4 = 100 * 3 / 4 :=
  C3_progress_truncation.2.1 4 (by decide) 3 (by decide)

/-- C10 (confirmed): at the start endpoint every selected date that is a
purely numeric string of at most two characters is expanded to the fixed
calendar date `2025-12-` plus the zero-padded day (hard-coded year 2025,
month 12), and every other date string passes through unchanged. -/
theorem C10_date_expansion :
    ∀ d : String,
      (pyIsdigit d = true → d.length ≤ 2 →
        convert_selected_date d = "2025-12-" ++ pyZfill 2 d) ∧
      (pyIsdigit d = false ∨ 2 < d.length →
        convert_selected_date d = d) := by
  intro d
  constructor
  · intro h1 h2
    simp [convert_selected_date, h1, h2]
  · intro h
    rcases h with h | h
    · simp [convert_selected_date, h]
    · simp [convert_selected_date, Nat.not_le.mpr h]

/-- C10 witness: the day string `5` expands to `2025-12-05`; a full date
passes through unchanged. -/
theorem C10_witness :
    convert_selected_date "5" = "2025-12-05" ∧
    convert_selected_date "2025-11-03" = "2025-11-03" := by
  constructor
  · have h := (C10_date_expansion "5").1 (by decide) (by decide)
    rw [h]; decide
  · exact (C10_date_expansion "2025-11-03").2 (Or.inl (by decide))

/-- C8 (confirmed): the dedup fingerprint is a deterministic function of
exactly {platform, route_name, route_date, bus_name, departing_time, price}:
records agreeing on these six fields receive equal fingerprints (for any hash
primitive), and changing any of the other stored fields (bus_type, duration,
reaching_time, star_rating, seat_availability) never changes the
fingerprint. -/
theorem C8_fingerprint_fields :
    (∀ (h : String → String) (d1 d2 : BusData),
        d1.platform = d2.platform → d1.route_name = d2.route_name →
        d1.route_date = d2.route_date → d1.bus_name = d2.bus_name →
        d1.departing_time = d2.departing_time → d1.price = d2.price →
        generate_hash h d1 = generate_hash h d2) ∧
    (∀ (h : String → String) (d : BusData) (v : String),
        generate_hash h { d with bus_type := v } = generate_hash h d ∧
        generate_hash h { d with duration := v } = generate_hash h d ∧
        generate_hash h { d with reaching_time := v } = generate_hash h d ∧
        generate_hash h { d with star_rating := v } = generate_hash h d ∧
        generate_hash h { d with seat_availability := v } = generate_hash h d) := by
  constructor
  · intro h d1 d2 h1 h2 h3 h4 h5 h6
    unfold generate_hash uniqueStr
    rw [h1, h2, h3, h4, h5, h6]
  · intro h d v
    exact ⟨rfl, rfl, rfl, rfl, rfl⟩

/-- C8 witness: two records agreeing on the six key fields but differing in
bus_type, duration, reaching_time, star_rating and seat_availability receive
the same fingerprint. -/
theorem C8_witness :
    generate_hash (fun s => s)
        ⟨"redbus", "Jakarta-Semarang", "2025-12-15", "Rosalia", "AC",
          "08:00", "5h", "13:00", "4.5", "150000", "10"⟩
      = generate_hash (fun s => s)
        ⟨"redbus", "Jakarta-Semarang", "2025-12-15", "Rosalia", "Sleeper",
          "08:00", "9h", "17:00", "3.0", "150000", "2"⟩ :=
  C8_fingerprint_fields.1 (fun s => s) _ _ rfl rfl rfl rfl rfl rfl

/-- C4 (confirmed): while a run for the platform is active, both start
endpoints reject the request with an already-running error and return the
state unchanged — statistics, log buffer, progress and task counters are not
reset by the rejected call. -/
theorem C4_start_rejected_while_running :
    ∀ (reg : Registry) (st : RunState) (req : StartRequest),
      st.is_running = true →
      start_crawling reg st "redbus" req = (st, .alreadyRunning) ∧
      api_v2_start_crawling reg st "redbus" req = (st, .alreadyRunning) := by
  intro reg st req h
  constructor <;> simp [start_crawling, api_v2_start_crawling, h]

/-- C4 witness: a rejected start call on a concrete mid-run state (non-zero
statistics, logs, progress and counters) leaves that state intact. -/
theorem C4_witness :
    start_crawling ⟨[], []⟩ ⟨true, 50, 4, 2, ⟨7, 1, 1⟩, [LogLevel.info]⟩
        "redbus" ⟨["Jakarta-Semarang"], ["5"]⟩
      = (⟨true, 50, 4, 2, ⟨7, 1, 1⟩, [LogLevel.info]⟩, .alreadyRunning) :=
  (C4_start_rejected_while_running ⟨[], []⟩
    ⟨true, 50, 4, 2, ⟨7, 1, 1⟩, [LogLevel.info]⟩
    ⟨["Jakarta-Semarang"], ["5"]⟩ rfl).1

/-- Every task the inner date loop emits carries a date that passed
validation, and its URL is the formatted URL for that date. -/
theorem genTasksForDates_mem (reg : Registry) (route : Route) :
    ∀ (dates : List String) (t : CrawlTask),
      t ∈ (genTasksForDates reg route dates).1 →
      (validate_date_format t.date).1 = true ∧
      t.url = format_url_for_date reg t.route_id "redbus" t.date := by
  intro dates
  induction dates with
  | nil => intro t ht; simp [genTasksForDates] at ht
  | cons d rest ih =>
      intro t ht
      cases hv : (validate_date_format d).1 with
      | true =>
          simp only [genTasksForDates, hv, ite_true] at ht
          rcases List.mem_cons.mp ht with h | h
          · rw [h]; exact ⟨hv, rfl⟩
          · exact ih t h
      | false =>
          simp only [genTasksForDates, hv, Bool.false_eq_true, ite_false] at ht
          exact ih t ht

/-- The inner date loop records one `invalidDate` warning for every malformed
date it skips. -/
theorem genTasksForDates_warn (reg : Registry) (route : Route) :
    ∀ (dates : List String) (d : String),
      d ∈ dates → (validate_date_format d).1 = false →
      GenWarning.invalidDate d ∈ (genTasksForDates reg route dates).2 := by
  intro dates
  induction dates with
  | nil => intro d hd; simp at hd
  | cons d0 rest ih =>
      intro d hd hv
      rcases List.mem_cons.mp hd with h | h
      · subst h
        simp only [genTasksForDates, hv, Bool.false_eq_true, ite_false]
        exact List.mem_cons_self _ _
      · cases hv0 : (validate_date_format d0).1 with
        | true =>
            simp only [genTasksForDates, hv0, ite_true]
            exact ih d h hv
        | false =>
            simp only [genTasksForDates, hv0, Bool.false_eq_true, ite_false]
            exact List.mem_cons_of_mem _ (ih d h hv)

/-- Warnings accumulated for later routes survive prepending a route. -/
theorem generate_redbus_tasks_warn_mono (reg : Registry) (m : String)
    (rest dates : List String) (w : GenWarning)
    (hw : w ∈ (generate_redbus_tasks reg rest dates).2) :
    w ∈ (generate_redbus_tasks reg (m :: rest) dates).2 := by
  cases hm : get_route_by_name reg m with
  | none =>
      simp only [generate_redbus_tasks, hm]
      exact List.mem_cons_of_mem _ hw
  | some route =>
      cases hp : get_platform_url reg route.id "redbus" with
      | none =>
          simp only [generate_redbus_tasks, hm, hp]
          exact List.mem_cons_of_mem _ hw
      | some tpl =>
          simp only [generate_redbus_tasks, hm, hp]
          exact List.mem_append_right _ hw

/-- C7 (confirmed): task generation never coerces a malformed date into a
task — every generated task carries a date accepted by
`validate_date_format`, with the URL formatted from that valid date (so the
`ValueError` branch of `_format_redbus_url`, which would leave placeholders
unsubstituted, is never reached) — and for every route that passes the route
and template checks, each malformed date in the list is skipped with an
`invalidDate` warning; generation is a total function and never raises. -/
theorem C7_malformed_dates_skipped :
    (∀ (reg : Registry) (names dates : List String) (t : CrawlTask),
        t ∈ (generate_redbus_tasks reg names dates).1 →
        (validate_date_format t.date).1 = true ∧
        t.url = format_url_for_date reg t.route_id "redbus" t.date) ∧
    (∀ (reg : Registry) (names dates : List String) (n d : String)
        (r : Route) (tpl : String),
        n ∈ names → get_route_by_name reg n = some r →
        get_platform_url reg r.id "redbus" = some tpl →
        d ∈ dates → (validate_date_format d).1 = false →
        GenWarning.invalidDate d ∈ (generate_redbus_tasks reg names dates).2) := by
  constructor
  · intro reg names
    induction names with
    | nil => intro dates t ht; simp [generate_redbus_tasks] at ht
    | cons m rest ih =>
        intro dates t ht
        simp only [generate_redbus_tasks] at ht
        cases hm : get_route_by_name reg m with
        | none => simp only [hm] at ht; exact ih dates t ht
        | some route =>
            cases hp : get_platform_url reg route.id "redbus" with
            | none => simp only [hm, hp] at ht; exact ih dates t ht
            | some tpl =>
                simp only [hm, hp] at ht
                rcases List.mem_append.mp ht with h | h
                · exact genTasksForDates_mem reg route dates t h
                · exact ih dates t h
  · intro reg names
    induction names with
    | nil => intro dates n d r tpl hn; simp at hn
    | cons m rest ih =>
        intro dates n d r tpl hn h1 h2 hd hv
        rcases List.mem_cons.mp hn with h | h
        · subst h
          simp only [generate_redbus_tasks, h1, h2]
          exact List.mem_append_left _ (genTasksForDates_warn reg r dates d hd hv)
        · exact generate_redbus_tasks_warn_mono reg m rest dates _
            (ih dates n d r tpl h h1 h2 hd hv)

/-- C7 witness: a registered route with a redbus template plus the malformed
date string `2025-13-40` produces an `invalidDate` warning, and the one task
generated for the valid date carries a validated date. -/
theorem C7_witness :
    GenWarning.invalidDate "2025-13-40" ∈
      (generate_redbus_tasks
        ⟨[⟨"r1", "RouteA", "CityA", "CityB", "intercity", true⟩],
         [("redbus", [("r1", "https://x/[[DAY]]-[[MONTH]]-[[YEAR]]")])]⟩
        ["RouteA"] ["2025-12-15", "2025-13-40"]).2 :=
  C7_malformed_dates_skipped.2
    ⟨[⟨"r1", "RouteA", "CityA", "CityB", "intercity", true⟩],
     [("redbus", [("r1", "https://x/[[DAY]]-[[MONTH]]-[[YEAR]]")])]⟩
    ["RouteA"] ["2025-12-15", "2025-13-40"] "RouteA" "2025-13-40"
    ⟨"r1", "RouteA", "CityA", "CityB", "intercity", true⟩
    "https://x/[[DAY]]-[[MONTH]]-[[YEAR]]"
    (by decide) (by decide) (by decide) (by decide) (by decide)

/-- C6 counterexample: a registry holding the route `Jakarta-Semarang` with no
redbus template, asked for two dates, yields 0 tasks but exactly ONE warning
(for the route), not one warning per (route, date) combination — refuting the
claimed 2 warnings for this scenario. -/
theorem C6_counterexample :
    (generate_redbus_tasks
        ⟨[⟨"jakarta_semarang", "Jakarta-Semarang", "Jakarta", "Semarang",
            "intercity", true⟩], []⟩
        ["Jakarta-Semarang"] ["2025-12-15", "2025-12-16"]).1 = [] ∧
    (generate_redbus_tasks
        ⟨[⟨"jakarta_semarang", "Jakarta-Semarang", "Jakarta", "Semarang",
            "intercity", true⟩], []⟩
        ["Jakarta-Semarang"] ["2025-12-15", "2025-12-16"]).2
      = [GenWarning.noRedbusUrl "Jakarta-Semarang"] ∧
    ¬ (generate_redbus_tasks
        ⟨[⟨"jakarta_semarang", "Jakarta-Semarang", "Jakarta", "Semarang",
            "intercity", true⟩], []⟩
        ["Jakarta-Semarang"] ["2025-12-15", "2025-12-16"]).2.length = 2 := by
  decide

/-- A route found by name carries exactly the queried name. -/
theorem findRouteNamed_name (name : String) :
    ∀ (l : List Route) (r : Route), findRouteNamed name l = some r →
      r.name = name := by
  intro l
  induction l with
  | nil => intro r h; simp [findRouteNamed] at h
  | cons r0 rest ih =>
      intro r h
      by_cases h0 : r0.name = name
      · simp only [findRouteNamed, h0, ite_true, Option.some.injEq] at h
        rw [← h]; exact h0
      · simp only [findRouteNamed, h0, ite_false] at h
        exact ih r h

/-- Every task the inner date loop emits is named after its route. -/
theorem genTasksForDates_route_name (reg : Registry) (route : Route) :
    ∀ (dates : List String) (t : CrawlTask),
      t ∈ (genTasksForDates reg route dates).1 → t.route_name = route.name := by
  intro dates
  induction dates with
  | nil => intro t ht; simp [genTasksForDates] at ht
  | cons d rest ih =>
      intro t ht
      cases hv : (validate_date_format d).1 with
      | true =>
          simp only [genTasksForDates, hv, ite_true] at ht
          rcases List.mem_cons.mp ht with h | h
          · rw [h]
          · exact ih t h
      | false =>
          simp only [genTasksForDates, hv, Bool.false_eq_true, ite_false] at ht
          exact ih t ht

/-- The inner date loop emits only `invalidDate` warnings, never a
`noRedbusUrl` one. -/
theorem genTasksForDates_warn_count (reg : Registry) (route : Route)
    (n : String) :
    ∀ dates : List String,
      (genTasksForDates reg route dates).2.count (GenWarning.noRedbusUrl n)
        = 0 := by
  intro dates
  induction dates with
  | nil => rfl
  | cons d rest ih =>
      cases hv : (validate_date_format d).1 with
      | true => simp only [genTasksForDates, hv, ite_true]; exact ih
      | false =>
          simp only [genTasksForDates, hv, Bool.false_eq_true, ite_false]
          simp [List.count_cons, ih]

/-- No generated task belongs to a route that exists without a redbus
template, whatever the requested route list. -/
theorem generate_tasks_no_excluded (reg : Registry) (n : String) (r : Route)
    (h1 : get_route_by_name reg n = some r)
    (h2 : get_platform_url reg r.id "redbus" = none) :
    ∀ (names dates : List String) (t : CrawlTask),
      t ∈ (generate_redbus_tasks reg names dates).1 → t.route_name ≠ n := by
  intro names
  induction names with
  | nil => intro dates t ht; simp [generate_redbus_tasks] at ht
  | cons m rest ih =>
      intro dates t ht
      simp only [generate_redbus_tasks] at ht
      cases hm : get_route_by_name reg m with
      | none => simp only [hm] at ht; exact ih dates t ht
      | some rm =>
          cases hp : get_platform_url reg rm.id "redbus" with
          | none => simp only [hm, hp] at ht; exact ih dates t ht
          | some tpl =>
              simp only [hm, hp] at ht
              rcases List.mem_append.mp ht with h | h
              · intro hn
                have hrm : rm.name = m := findRouteNamed_name m reg.master_routes rm hm
                have hname := genTasksForDates_route_name reg rm dates t h
                have hmn : m = n := by rw [← hrm, ← hname, hn]
                subst hmn
                rw [h1] at hm
                rw [Option.some.inj hm] at h2
                rw [hp] at h2
                exact Option.noConfusion h2
              · exact ih dates t h

/-- The generator prints exactly one `noRedbusUrl` warning per occurrence of
a template-less route name in the requested list, whatever the dates. -/
theorem generate_tasks_warn_count (reg : Registry) (n : String) (r : Route)
    (h1 : get_route_by_name reg n = some r)
    (h2 : get_platform_url reg r.id "redbus" = none) :
    ∀ (names dates : List String),
      (generate_redbus_tasks reg names dates).2.count (GenWarning.noRedbusUrl n)
        = names.count n := by
  intro names
  induction names with
  | nil => intro dates; rfl
  | cons m rest ih =>
      intro dates
      by_cases hmn : m = n
      · subst hmn
        simp only [generate_redbus_tasks, h1, h2]
        simp [List.count_cons, ih dates]
      · cases hm : get_route_by_name reg m with
        | none =>
            simp only [generate_redbus_tasks, hm]
            simp [List.count_cons, hmn, ih dates]
        | some rm =>
            cases hp : get_platform_url reg rm.id "redbus" with
            | none =>
                simp only [generate_redbus_tasks, hm, hp]
                simp [List.count_cons, hmn, ih dates]
            | some tpl =>
                simp only [generate_redbus_tasks, hm, hp]
                rw [List.count_append]
                simp [genTasksForDates_warn_count, hmn, ih dates,
                  List.count_cons]

/-- The generator copy inside web_crawler_unified.py likewise emits no task
for a route that exists without a redbus template. -/
theorem unified_tasks_no_excluded (reg : Registry) (n : String) (r : Route)
    (h1 : get_route_by_name reg n = some r)
    (h2 : get_platform_url reg r.id "redbus" = none) :
    ∀ (names dates : List String) (u : UnifiedTask),
      u ∈ unified_generate_redbus_tasks reg names dates → u.route ≠ n := by
  intro names
  induction names with
  | nil => intro dates u hu; simp [unified_generate_redbus_tasks] at hu
  | cons m rest ih =>
      intro dates u hu
      simp only [unified_generate_redbus_tasks] at hu
      cases hm : get_route_by_name reg m with
      | none => simp only [hm] at hu; exact ih dates u hu
      | some rm =>
          cases hp : get_platform_url reg rm.id "redbus" with
          | none => simp only [hm, hp] at hu; exact ih dates u hu
          | some tpl =>
              simp only [hm, hp] at hu
              rcases List.mem_append.mp hu with h | h
              · obtain ⟨d, _, hd⟩ := List.mem_map.mp h
                intro hn
                have hmn : m = n := by rw [← hn, ← hd]
                subst hmn
                rw [h1] at hm
                rw [Option.some.inj hm] at h2
                rw [hp] at h2
                exact Option.noConfusion h2
              · exact ih dates u h

/-- C6 (amended): for every call to either task generator, each (route, date)
combination whose route exists but has no redbus template produces no task,
and the warning-printing generator logs exactly one `noRedbusUrl` warning per
occurrence of the excluded route name in the requested list — the template
check sits outside the date loop, so the warning count is independent of the
number of dates; in particular, a singleton call for one template-less route
with any dates yields 0 tasks and exactly 1 warning. -/
theorem C6_route_without_template :
    (∀ (reg : Registry) (names dates : List String) (n : String) (r : Route),
        get_route_by_name reg n = some r →
        get_platform_url reg r.id "redbus" = none →
        (∀ t ∈ (generate_redbus_tasks reg names dates).1, t.route_name ≠ n) ∧
        (generate_redbus_tasks reg names dates).2.count
            (GenWarning.noRedbusUrl n) = names.count n ∧
        (∀ u ∈ unified_generate_redbus_tasks reg names dates, u.route ≠ n)) ∧
    (∀ (reg : Registry) (name : String) (dates : List String) (r : Route),
        get_route_by_name reg name = some r →
        get_platform_url reg r.id "redbus" = none →
        generate_redbus_tasks reg [name] dates
          = ([], [GenWarning.noRedbusUrl name])) := by
  constructor
  · intro reg names dates n r h1 h2
    exact ⟨fun t ht => generate_tasks_no_excluded reg n r h1 h2 names dates t ht,
      generate_tasks_warn_count reg n r h1 h2 names dates,
      fun u hu => unified_tasks_no_excluded reg n r h1 h2 names dates u hu⟩
  · intro reg name dates r h1 h2
    simp [generate_redbus_tasks, h1, h2]

/-- C6 witness: with `Jakarta-Semarang` registered but template-less, a
three-route request naming it twice yields exactly two `noRedbusUrl`
warnings (one per occurrence), and the singleton two-date scenario yields 0
tasks and exactly 1 warning. -/
theorem C6_witness :
    (generate_redbus_tasks
        ⟨[⟨"jkt_smg", "Jakarta-Semarang", "Jakarta", "Semarang",
            "intercity", true⟩], [("traveloka", [])]⟩
        ["Jakarta-Semarang", "Bandung-Solo", "Jakarta-Semarang"]
        ["2025-12-15", "2025-12-16"]).2.count
        (GenWarning.noRedbusUrl "Jakarta-Semarang")
      = (["Jakarta-Semarang", "Bandung-Solo", "Jakarta-Semarang"] :
          List String).count "Jakarta-Semarang" ∧
    generate_redbus_tasks
        ⟨[⟨"jkt_smg", "Jakarta-Semarang", "Jakarta", "Semarang",
            "intercity", true⟩], [("traveloka", [])]⟩
        ["Jakarta-Semarang"] ["2025-12-15", "2025-12-16"]
      = ([], [GenWarning.noRedbusUrl "Jakarta-Semarang"]) :=
  ⟨(C6_route_without_template.1
      ⟨[⟨"jkt_smg", "Jakarta-Semarang", "Jakarta", "Semarang",
          "intercity", true⟩], [("traveloka", [])]⟩
      ["Jakarta-Semarang", "Bandung-Solo", "Jakarta-Semarang"]
      ["2025-12-15", "2025-12-16"] "Jakarta-Semarang"
      ⟨"jkt_smg", "Jakarta-Semarang", "Jakarta", "Semarang", "intercity", true⟩
      (by decide) (by decide)).2.1,
    C6_route_without_template.2
      ⟨[⟨"jkt_smg", "Jakarta-Semarang", "Jakarta", "Semarang",
          "intercity", true⟩], [("traveloka", [])]⟩
      "Jakarta-Semarang" ["2025-12-15", "2025-12-16"]
      ⟨"jkt_smg", "Jakarta-Semarang", "Jakarta", "Semarang", "intercity", true⟩
      (by decide) (by decide)⟩

/-- Concatenation at a pipe is unambiguous when the prefixes are
pipe-free. -/
theorem pipe_split_inj (p1 : List Char) :
    ∀ (p2 s1 s2 : List Char), '|' ∉ p1 → '|' ∉ p2 →
      p1 ++ '|' :: s1 = p2 ++ '|' :: s2 → p1 = p2 ∧ s1 = s2 := by
  induction p1 with
  | nil =>
      intro p2 s1 s2 _ hp2 h
      cases p2 with
      | nil =>
          simp only [List.nil_append] at h
          exact ⟨rfl, (List.cons.inj h).2⟩
      | cons c p2' =>
          simp only [List.nil_append, List.cons_append] at h
          have hc := (List.cons.inj h).1
          exact absurd (hc ▸ List.mem_cons_self '|' p2') hp2
  | cons c p1' ih =>
      intro p2 s1 s2 hp1 hp2 h
      cases p2 with
      | nil =>
          simp only [List.cons_append, List.nil_append] at h
          have hc := (List.cons.inj h).1
          exact absurd (hc ▸ List.mem_cons_self c p1') hp1
      | cons c2 p2' =>
          simp only [List.cons_append] at h
          obtain ⟨hc, ht⟩ := List.cons.inj h
          have hrec := ih p2' s1 s2
            (fun hm => hp1 (List.mem_cons_of_mem _ hm))
            (fun hm => hp2 (List.mem_cons_of_mem _ hm)) ht
          exact ⟨by rw [hc, hrec.1], hrec.2⟩

/-- Reversing the three-segment pipe shape. -/
theorem reverse_pipe_shape (n d c : List Char) :
    (n ++ '|' :: (d ++ '|' :: c)).reverse
      = c.reverse ++ '|' :: (d.reverse ++ '|' :: n.reverse) := by
  simp [List.reverse_append, List.append_assoc]

/-- The character list underlying a row key. -/
theorem rowKey_data (r : DbRow) :
    (rowKey r).data
      = r.route_name.data ++ '|' :: (r.route_date.data ++ '|' :: r.crawl_date.data) := by
  simp [rowKey, String.data_append]

/-- On rows whose date fields are pipe-free, key-string equality coincides
with agreement on the (route_name, route_date, crawl_date) triple. -/
theorem rowKey_eq_iff (x r : DbRow) (hx : pipeFree x) (hr : pipeFree r) :
    rowKey x = rowKey r ↔ sameTriple x r = true := by
  constructor
  · intro h
    have hd : (rowKey x).data = (rowKey r).data := by rw [h]
    rw [rowKey_data, rowKey_data] at hd
    have hrev := congrArg List.reverse hd
    rw [reverse_pipe_shape, reverse_pipe_shape] at hrev
    have h1 := pipe_split_inj _ _ _ _
      (fun hm => hx.2 (List.mem_reverse.mp hm))
      (fun hm => hr.2 (List.mem_reverse.mp hm)) hrev
    have h2 := pipe_split_inj _ _ _ _
      (fun hm => hx.1 (List.mem_reverse.mp hm))
      (fun hm => hr.1 (List.mem_reverse.mp hm)) h1.2
    have hc : x.crawl_date = r.crawl_date :=
      String.ext (List.reverse_injective h1.1)
    have hdte : x.route_date = r.route_date :=
      String.ext (List.reverse_injective h2.1)
    have hn : x.route_name = r.route_name :=
      String.ext (List.reverse_injective h2.2)
    simp [sameTriple, hn, hdte, hc]
  · intro h
    simp only [sameTriple, Bool.and_eq_true, beq_iff_eq] at h
    rw [rowKey, rowKey, h.1.1, h.1.2, h.2]

theorem trackerGet_set_self (tr : List (String × Nat)) (k : String) (v : Nat) :
    trackerGet (trackerSet tr k v) k = some v := by
  induction tr with
  | nil => simp [trackerSet, trackerGet, lookupStr]
  | cons p rest ih =>
      obtain ⟨k', v'⟩ := p
      simp only [trackerGet] at ih
      by_cases h : k' = k <;> simp [trackerSet, trackerGet, lookupStr, h, ih]

theorem trackerGet_set_other (tr : List (String × Nat)) (k k2 : String)
    (v : Nat) (h : k2 ≠ k) :
    trackerGet (trackerSet tr k v) k2 = trackerGet tr k2 := by
  have hne : ¬ k = k2 := fun he => h he.symm
  induction tr with
  | nil => simp [trackerSet, trackerGet, lookupStr, hne]
  | cons p rest ih =>
      obtain ⟨k', v'⟩ := p
      simp only [trackerGet] at ih
      by_cases hk : k' = k
      · subst hk
        simp [trackerSet, trackerGet, lookupStr, hne]
      · by_cases hk2 : k' = k2
        · subst hk2
          simp [trackerSet, trackerGet, lookupStr, hk]
        · simp [trackerSet, trackerGet, lookupStr, hk, hk2, ih]

/-- The migration loop computes the specification assignment as long as the
tracker counts, for every key, the rows already scanned with that key, and
all rows are pipe-free in their date fields. -/
theorem assignSeqAux_spec :
    ∀ (rest prev : List DbRow) (tr : List (String × Nat)),
      (∀ k : String, (trackerGet tr k).getD 0
          = (prev.filter fun x => rowKey x == k).length) →
      (∀ r ∈ prev, pipeFree r) → (∀ r ∈ rest, pipeFree r) →
      assignSeqAux tr rest = seqSpec prev rest := by
  intro rest
  induction rest with
  | nil => intro prev tr _ _ _; rfl
  | cons r rest' ih =>
      intro prev tr htr hprev hrest
      have hr : pipeFree r := hrest r (List.mem_cons_self _ _)
      have hcount : (trackerGet tr (rowKey r)).getD 0
          = (prev.filter fun x => sameTriple x r).length := by
        rw [htr (rowKey r)]
        congr 1
        apply List.filter_congr
        intro x hx
        have hx' : pipeFree x := hprev x hx
        by_cases hkey : rowKey x = rowKey r
        · rw [beq_iff_eq.mpr hkey, (rowKey_eq_iff x r hx' hr).mp hkey]
        · rw [beq_eq_false_iff_ne.mpr hkey]
          by_cases hs : sameTriple x r = true
          · exact absurd ((rowKey_eq_iff x r hx' hr).mpr hs) hkey
          · rw [Bool.not_eq_true] at hs; rw [hs]
      simp only [assignSeqAux, seqSpec, hcount]
      refine congrArg _ ?_
      apply ih (prev ++ [r])
      · intro k
        by_cases hk : k = rowKey r
        · subst hk
          rw [trackerGet_set_self]
          simp only [Option.getD_some, List.filter_append, List.length_append]
          have h1 : (List.filter (fun x => sameTriple x r) prev).length
              = (List.filter (fun x => rowKey x == rowKey r) prev).length := by
            rw [← htr (rowKey r), hcount]
          have h2 : (List.filter (fun x => rowKey x == rowKey r) [r]).length
              = 1 := by simp [List.filter]
          omega
        · rw [trackerGet_set_other _ _ _ _ hk, htr k, List.filter_append,
            List.length_append]
          have : (rowKey r == k) = false :=
            beq_eq_false_iff_ne.mpr fun he => hk he.symm
          simp [List.filter, this]
      · intro x hx
        rcases List.mem_append.mp hx with h | h
        · exact hprev x h
        · rw [List.mem_singleton.mp h]; exact hr
      · intro x hx
        exact hrest x (List.mem_cons_of_mem _ hx)

/-- C5 counterexample: two rows with different (route_name, route_date)
triples whose pipe-concatenated key strings collide (`a|b|c … |d`): the
second row is the first and only row of its own triple, yet it is assigned
crawl_sequence 2, refuting the claim that each distinct triple's sequence
starts at 1. -/
theorem C5_counterexample :
    update_existing_records
        [⟨1, "a", "b|c", "d"⟩, ⟨2, "a|b", "c", "d"⟩]
      = [(1, 1), (2, 2)] ∧
    sameTriple ⟨1, "a", "b|c", "d"⟩ ⟨2, "a|b", "c", "d"⟩ = false := by
  decide

/-- C5 (amended): provided `route_date` and the calendar capture day contain
no `|` separator (true of every date-shaped value), the migration assigns
each row one plus the number of earlier rows sharing its
(route_name, route_date, calendar capture day) triple — so rows of one triple
receive 1, 2, 3, … in scan (chronological) order, strictly increasing and
starting at 1 per triple, and a row with a different calendar capture day for
the same route and route_date restarts at 1; without that proviso colliding
key strings can break the restart. -/
theorem C5_crawl_sequence (rows : List DbRow)
    (h : ∀ r ∈ rows, pipeFree r) :
    update_existing_records rows = seqSpec [] rows := by
  apply assignSeqAux_spec rows [] []
  · intro k; rfl
  · intro r hr; exact absurd hr (List.not_mem_nil r)
  · exact h

/-- C5 witness: three pipe-free rows of one route and route_date, two
captured on one calendar day and one on the next: sequences 1, 2 then a
restart at 1. -/
theorem C5_witness :
    update_existing_records
        [⟨1, "Jakarta-Semarang", "2025-12-15", "2025-11-01"⟩,
         ⟨2, "Jakarta-Semarang", "2025-12-15", "2025-11-01"⟩,
         ⟨3, "Jakarta-Semarang", "2025-12-15", "2025-11-02"⟩]
      = [(1, 1), (2, 2), (1, 3)] :=
  (C5_crawl_sequence
    [⟨1, "Jakarta-Semarang", "2025-12-15", "2025-11-01"⟩,
     ⟨2, "Jakarta-Semarang", "2025-12-15", "2025-11-01"⟩,
     ⟨3, "Jakarta-Semarang", "2025-12-15", "2025-11-02"⟩]
    (by decide)).trans (by decide)
